import Mathlib

/-!
Verification of the vDC protocol engine of `virtual_digitalSTROM_devices_4_HA`.

This file gives a shallow embedding of the core components:
property values and the property tree (`models/property_element.py`),
the dSUID identifier generator (`dsuid_generator.py`), and the message
dispatcher layer (`message_handler.py`, `api/message_builder.py`,
`api/vdc_message_dispatcher.py`), together with theorems settling the
specification claims about them.

Python dynamic values are modelled by the inductive type `PyData`;
Python exceptions are modelled by `Except String`; machine-level bytes are
naturals smaller than 256.
-/

set_option maxRecDepth 4096

namespace VDS

/-- Representation of a Python float (an IEEE-754 double) by its bit pattern.
The code under verification only stores and returns float values, it never
computes with them, so identity of the representation is all that is needed. -/
structure PyFloat where
  bits : Nat
deriving DecidableEq, Repr

/-- A Python runtime value as seen by the property layer: the six kinds
supported by `PropertyValue.from_python` (None, bool, int, float, str, bytes),
the container kinds dict and list used by the tree builder, and `pyOther`
standing for a value of any further type (carrying the textual type name,
which only appears in error messages). Dicts are insertion-ordered key/value
lists, as in Python. -/
inductive PyData where
  | pyNone : PyData
  | pyBool (b : Bool) : PyData
  | pyInt (n : Int) : PyData
  | pyFloat (f : PyFloat) : PyData
  | pyStr (s : String) : PyData
  | pyBytes (bs : List Nat) : PyData
  | pyDict (entries : List (String × PyData)) : PyData
  | pyList (items : List PyData) : PyData
  | pyOther (typeName : String) : PyData
deriving Repr

/-- The `PropertyValue` protobuf mirror from `models/property_element.py`:
six optional variant fields, at most one of which is set. -/
structure PropertyValue where
  v_bool : Option Bool := none
  v_uint64 : Option Int := none
  v_int64 : Option Int := none
  v_double : Option PyFloat := none
  v_string : Option String := none
  v_bytes : Option (List Nat) := none
deriving Repr

/-- `PropertyValue.from_python` (property_element.py lines 54-81): bool is
checked before int, non-negative ints map to `v_uint64`, negative ints to
`v_int64`; dict, list and any other unsupported kind raise `ValueError`. -/
def PropertyValue.from_python : PyData → Except String PropertyValue
  | .pyNone => .ok {}
  | .pyBool b => .ok { v_bool := some b }
  | .pyInt n => if n ≥ 0 then .ok { v_uint64 := some n } else .ok { v_int64 := some n }
  | .pyFloat f => .ok { v_double := some f }
  | .pyStr s => .ok { v_string := some s }
  | .pyBytes bs => .ok { v_bytes := some bs }
  | .pyDict _ => .error "Unsupported value type: <class 'dict'>"
  | .pyList _ => .error "Unsupported value type: <class 'list'>"
  | .pyOther typeName => .error ("Unsupported value type: " ++ typeName)

/-- `PropertyValue.to_python` (property_element.py lines 83-102): returns the
first populated variant, in field order, or None when no variant is set. -/
def PropertyValue.to_python (v : PropertyValue) : PyData :=
  match v.v_bool with
  | some b => .pyBool b
  | none =>
    match v.v_uint64 with
    | some n => .pyInt n
    | none =>
      match v.v_int64 with
      | some n => .pyInt n
      | none =>
        match v.v_double with
        | some f => .pyFloat f
        | none =>
          match v.v_string with
          | some s => .pyStr s
          | none =>
            match v.v_bytes with
            | some bs => .pyBytes bs
            | none => .pyNone

/-- The `PropertyElement` tree node (property_element.py): a name, an optional
value and an ordered list of children. -/
inductive PropertyElement where
  | mk (name : String) (value : Option PropertyValue) (elements : List PropertyElement) : PropertyElement

/-- Name accessor. -/
def PropertyElement.name : PropertyElement → String
  | .mk n _ _ => n

/-- Value accessor. -/
def PropertyElement.value : PropertyElement → Option PropertyValue
  | .mk _ v _ => v

/-- Children accessor. -/
def PropertyElement.elements : PropertyElement → List PropertyElement
  | .mk _ _ es => es

/-- `PropertyElement.is_leaf`: has a value and no children. -/
def PropertyElement.is_leaf (e : PropertyElement) : Bool :=
  e.value.isSome && e.elements.isEmpty

/-- `PropertyElement.is_branch`: has children and no value. -/
def PropertyElement.is_branch (e : PropertyElement) : Bool :=
  !e.elements.isEmpty && e.value.isNone

/-- `PropertyElement.create_leaf`: builds a leaf from a dynamic value via
`PropertyValue.from_python` (which may raise). -/
def PropertyElement.create_leaf (name : String) (value : PyData) :
    Except String PropertyElement :=
  match PropertyValue.from_python value with
  | .ok pv => .ok (.mk name (some pv) [])
  | .error e => .error e

/-- `PropertyElement.create_branch`: a node with children and no value. -/
def PropertyElement.create_branch (name : String) (children : List PropertyElement) :
    PropertyElement :=
  .mk name none children

mutual

/-- `build_property_tree_from_dict` (property_element.py lines 267-321):
converts a nested string-keyed map into a `PropertyElement` branch. Dict
values become branches (one nesting level handled inline, deeper dicts
recursively), list values become branches with stringified indices as child
names, everything else becomes a leaf. -/
def build_property_tree_from_dict (data : List (String × PyData)) (name : String) :
    Except String PropertyElement :=
  match buildEntries data with
  | .ok elements => .ok (PropertyElement.create_branch name elements)
  | .error e => .error e

/-- The top-level loop of `build_property_tree_from_dict` over the entries of
the input map. -/
def buildEntries : List (String × PyData) → Except String (List PropertyElement)
  | [] => .ok []
  | (key, value) :: rest =>
    match buildEntry key value with
    | .error e => .error e
    | .ok elem =>
      match buildEntries rest with
      | .error e => .error e
      | .ok restElems => .ok (elem :: restElems)

/-- One entry of the top-level loop: dict → branch over `buildSubEntries`,
list → branch over `buildListEntries`, otherwise a leaf. -/
def buildEntry (key : String) (value : PyData) : Except String PropertyElement :=
  match value with
  | .pyDict d =>
    match buildSubEntries d with
    | .ok children => .ok (PropertyElement.create_branch key children)
    | .error e => .error e
  | .pyList l =>
    match buildListEntries 0 l with
    | .ok children => .ok (PropertyElement.create_branch key children)
    | .error e => .error e
  | v => PropertyElement.create_leaf key v

/-- The inner loop over a nested dict: dict sub-values recurse into
`build_property_tree_from_dict`, all other sub-values (including lists, on
which `create_leaf` raises) become leaves. -/
def buildSubEntries : List (String × PyData) → Except String (List PropertyElement)
  | [] => .ok []
  | (sub_key, sub_value) :: rest =>
    match
      (match sub_value with
       | .pyDict d => build_property_tree_from_dict d sub_key
       | v => PropertyElement.create_leaf sub_key v) with
    | .error e => .error e
    | .ok elem =>
      match buildSubEntries rest with
      | .error e => .error e
      | .ok restElems => .ok (elem :: restElems)

/-- The loop over a list value: dict items recurse into
`build_property_tree_from_dict` with the stringified index as name, other
items become leaves named by their index. -/
def buildListEntries (idx : Nat) : List PyData → Except String (List PropertyElement)
  | [] => .ok []
  | item :: rest =>
    match
      (match item with
       | .pyDict d => build_property_tree_from_dict d (toString idx)
       | v => PropertyElement.create_leaf (toString idx) v) with
    | .error e => .error e
    | .ok elem =>
      match buildListEntries (idx + 1) rest with
      | .error e => .error e
      | .ok restElems => .ok (elem :: restElems)

end

/-- Python dict assignment `d[key] = v`: replaces the value in place when the
key exists (keeping its position), otherwise appends the new pair. -/
def dictSet (d : List (String × PyData)) (key : String) (v : PyData) :
    List (String × PyData) :=
  if d.any (fun p => p.1 = key) then
    d.map (fun p => if p.1 = key then (key, v) else p)
  else
    d ++ [(key, v)]

/-- Python `dict.update(other)`: assigns every pair of `other` in order. -/
def dictUpdate (d other : List (String × PyData)) : List (String × PyData) :=
  other.foldl (fun acc p => dictSet acc p.1 p.2) d

/-- The expression `element.value.to_python() if element.value else None`
used throughout `property_tree_to_dict`. -/
def valueToPython (v : Option PropertyValue) : PyData :=
  match v with
  | some pv => pv.to_python
  | none => .pyNone

mutual

/-- `property_tree_to_dict` (property_element.py lines 324-352): converts a
tree back to a nested map. A leaf root maps its own name; otherwise the
children are folded into a dict: leaf children become entries, non-leaf
children become nested dicts whose own non-leaf grandchildren are converted
recursively and merged in via `dict.update` — which is what drops the names
of branches at the third nesting level. -/
def property_tree_to_dict (element : PropertyElement) : List (String × PyData) :=
  match element with
  | .mk name value elements =>
    if (PropertyElement.mk name value elements).is_leaf then
      [(name, valueToPython value)]
    else
      convChildren [] elements
termination_by sizeOf element

/-- The loop over the root's children in `property_tree_to_dict`. -/
def convChildren (acc : List (String × PyData)) :
    List PropertyElement → List (String × PyData)
  | [] => acc
  | (PropertyElement.mk cname cvalue celems) :: rest =>
    let acc' :=
      if (PropertyElement.mk cname cvalue celems).is_leaf then
        dictSet acc cname (valueToPython cvalue)
      else
        dictSet acc cname (.pyDict (convSub [] celems))
    convChildren acc' rest
termination_by l => sizeOf l

/-- The loop over a second-level branch's children: leaf grandchildren become
entries, non-leaf grandchildren are converted recursively and merged into the
same dict with `dict.update`. -/
def convSub (acc : List (String × PyData)) :
    List PropertyElement → List (String × PyData)
  | [] => acc
  | sub_child :: rest =>
    let acc' :=
      if sub_child.is_leaf then
        dictSet acc sub_child.name (valueToPython sub_child.value)
      else
        dictUpdate acc (property_tree_to_dict sub_child)
    convSub acc' rest
termination_by l => sizeOf l

end

/-- The value kinds that `PropertyValue.from_python` supports losslessly. -/
def isSupportedKind : PyData → Bool
  | .pyBool _ | .pyInt _ | .pyFloat _ | .pyStr _ | .pyBytes _ => true
  | _ => false

/-! Key-uniqueness facts about dicts built with `dictSet`, needed to reason
about the `dict.update` merging in `property_tree_to_dict`. -/

/-- Keys of a `dictSet` result: unchanged when the key was present, appended
otherwise. -/
lemma map_fst_dictSet (d : List (String × PyData)) (k : String) (v : PyData) :
    (dictSet d k v).map Prod.fst =
      if d.any (fun p => p.1 = k) then d.map Prod.fst else d.map Prod.fst ++ [k] := by
  unfold dictSet
  split
  · simp only [List.map_map]
    congr 1
    funext p
    by_cases h : p.1 = k <;> simp [h, Function.comp]
  · simp

/-- `dictSet` preserves key uniqueness. -/
lemma nodup_dictSet {d : List (String × PyData)} (k : String) (v : PyData)
    (h : (d.map Prod.fst).Nodup) : ((dictSet d k v).map Prod.fst).Nodup := by
  rw [map_fst_dictSet]
  split
  · exact h
  · next hany =>
    simp only [List.any_eq_true, not_exists, not_and, decide_eq_true_eq] at hany
    refine List.Nodup.append h (List.nodup_singleton k) ?_
    intro a ha hb
    simp only [List.mem_singleton] at hb
    subst hb
    simp only [List.mem_map] at ha
    obtain ⟨p, hp, hpa⟩ := ha
    exact hany p hp hpa

/-- `dictUpdate` preserves key uniqueness of the accumulator. -/
lemma nodup_dictUpdate (l : List (String × PyData)) :
    ∀ d : List (String × PyData), (d.map Prod.fst).Nodup →
      ((dictUpdate d l).map Prod.fst).Nodup := by
  induction l with
  | nil => intro d h; simpa [dictUpdate] using h
  | cons p rest ih =>
    intro d h
    have : dictUpdate d (p :: rest) = dictUpdate (dictSet d p.1 p.2) rest := by
      simp [dictUpdate]
    rw [this]
    exact ih _ (nodup_dictSet p.1 p.2 h)

/-- `convSub` preserves key uniqueness of the accumulator. -/
lemma nodup_convSub (l : List PropertyElement) :
    ∀ acc : List (String × PyData), (acc.map Prod.fst).Nodup →
      ((convSub acc l).map Prod.fst).Nodup := by
  induction l with
  | nil => intro acc h; simpa [convSub] using h
  | cons sub rest ih =>
    intro acc h
    rw [convSub]
    split
    · exact ih _ (nodup_dictSet _ _ h)
    · exact ih _ (nodup_dictUpdate _ _ h)

/-- `convChildren` preserves key uniqueness of the accumulator. -/
lemma nodup_convChildren (l : List PropertyElement) :
    ∀ acc : List (String × PyData), (acc.map Prod.fst).Nodup →
      ((convChildren acc l).map Prod.fst).Nodup := by
  induction l with
  | nil => intro acc h; simpa [convChildren] using h
  | cons child rest ih =>
    intro acc h
    obtain ⟨cn, cv, ce⟩ := child
    rw [convChildren]
    split
    · exact ih _ (nodup_dictSet _ _ h)
    · exact ih _ (nodup_dictSet _ _ h)

/-- The output of `property_tree_to_dict` always has pairwise distinct keys. -/
lemma nodup_property_tree_to_dict (e : PropertyElement) :
    ((property_tree_to_dict e).map Prod.fst).Nodup := by
  obtain ⟨n, v, es⟩ := e
  rw [property_tree_to_dict]
  split
  · simp
  · exact nodup_convChildren es [] (by simp)

/-- Setting a key absent from the dict appends the pair. -/
lemma dictSet_of_not_mem {d : List (String × PyData)} {k : String} (v : PyData)
    (h : ∀ p ∈ d, p.1 ≠ k) : dictSet d k v = d ++ [(k, v)] := by
  unfold dictSet
  split
  · next hany =>
    simp only [List.any_eq_true, decide_eq_true_eq] at hany
    obtain ⟨p, hp, hpk⟩ := hany
    exact absurd hpk (h p hp)
  · rfl

/-- Updating with a key-disjoint, key-unique dict is concatenation. -/
lemma dictUpdate_of_disjoint (l : List (String × PyData)) :
    ∀ d : List (String × PyData),
      (∀ a ∈ d.map Prod.fst, a ∉ l.map Prod.fst) → (l.map Prod.fst).Nodup →
      dictUpdate d l = d ++ l := by
  induction l with
  | nil => intro d _ _; simp [dictUpdate]
  | cons q rest ih =>
    intro d hdisj hnodup
    have hpack : (q.1 ∉ rest.map Prod.fst) ∧ (rest.map Prod.fst).Nodup := by
      simpa [List.nodup_cons] using hnodup
    have hstep : dictUpdate d (q :: rest) = dictUpdate (dictSet d q.1 q.2) rest := by
      simp [dictUpdate]
    have hset : dictSet d q.1 q.2 = d ++ [(q.1, q.2)] := by
      refine dictSet_of_not_mem q.2 ?_
      intro p hp hpk
      exact hdisj p.1 (List.mem_map_of_mem Prod.fst hp) (by simp [hpk])
    rw [hstep, hset, ih (d ++ [(q.1, q.2)]) ?_ hpack.2]
    · simp
    · intro a ha
      rcases List.mem_map.mp ha with ⟨p, hp, rfl⟩
      rcases List.mem_append.mp hp with hp' | hp'
      · intro hmem
        exact hdisj p.1 (List.mem_map_of_mem Prod.fst hp') (by simp [hmem])
      · simp only [List.mem_singleton] at hp'
        subst hp'
        exact hpack.1

/-- Updating the empty dict with a key-unique dict yields it unchanged. -/
lemma dictUpdate_nil (l : List (String × PyData)) (h : (l.map Prod.fst).Nodup) :
    dictUpdate [] l = l := by
  simpa using dictUpdate_of_disjoint l [] (by simp) h

/-- Claim C7: round-tripping each supported dynamic kind through
`PropertyValue.from_python` and `PropertyValue.to_python` is the identity;
booleans land in the `v_bool` variant only (never an integer variant); and
unsupported kinds (dict, list, any other type) raise instead of being
stringified. -/
theorem C7_from_python_to_python_roundtrip :
    (∀ v : PyData, isSupportedKind v = true →
      (PropertyValue.from_python v).map PropertyValue.to_python = .ok v) ∧
    (∀ b : Bool, PropertyValue.from_python (.pyBool b) =
      .ok { v_bool := some b, v_uint64 := none, v_int64 := none,
            v_double := none, v_string := none, v_bytes := none }) ∧
    (∀ t : String, PropertyValue.from_python (.pyOther t) =
      .error ("Unsupported value type: " ++ t)) ∧
    (∀ d : List (String × PyData), PropertyValue.from_python (.pyDict d) =
      .error "Unsupported value type: <class 'dict'>") ∧
    (∀ l : List PyData, PropertyValue.from_python (.pyList l) =
      .error "Unsupported value type: <class 'list'>") := by
  refine ⟨?_, ?_, ?_, ?_, ?_⟩
  · intro v hv
    cases v with
    | pyBool b => simp [PropertyValue.from_python, PropertyValue.to_python, Except.map]
    | pyInt n =>
      by_cases h : n ≥ 0 <;>
        simp [PropertyValue.from_python, PropertyValue.to_python, Except.map, h]
    | pyFloat f => simp [PropertyValue.from_python, PropertyValue.to_python, Except.map]
    | pyStr s => simp [PropertyValue.from_python, PropertyValue.to_python, Except.map]
    | pyBytes bs => simp [PropertyValue.from_python, PropertyValue.to_python, Except.map]
    | pyNone => simp [isSupportedKind] at hv
    | pyDict d => simp [isSupportedKind] at hv
    | pyList l => simp [isSupportedKind] at hv
    | pyOther t => simp [isSupportedKind] at hv
  · intro b; rfl
  · intro t; rfl
  · intro d; rfl
  · intro l; rfl

/-- Witness for C7 at concrete inputs: the integer 5 is a supported kind and
round-trips; `True` maps to the boolean variant. -/
theorem C7_from_python_to_python_roundtrip_witness :
    (isSupportedKind (.pyInt 5) = true) ∧
    ((PropertyValue.from_python (.pyInt 5)).map PropertyValue.to_python =
      .ok (.pyInt 5)) :=
  ⟨rfl, C7_from_python_to_python_roundtrip.1 (.pyInt 5) rfl⟩

/-- Claim C8: building a property tree from the nested map
`{"a": 1, "b": {"c": true}}` and converting it back yields exactly
`{"a": 1, "b": {"c": true}}`. -/
theorem C8_two_level_roundtrip :
    (build_property_tree_from_dict
        [("a", .pyInt 1), ("b", .pyDict [("c", .pyBool true)])] "root").map
      property_tree_to_dict =
      .ok [("a", .pyInt 1), ("b", .pyDict [("c", .pyBool true)])] := by
  simp [build_property_tree_from_dict, buildEntries, buildEntry, buildSubEntries,
    PropertyElement.create_leaf, PropertyValue.from_python, PropertyElement.create_branch,
    property_tree_to_dict, convChildren, convSub, dictSet, dictUpdate, valueToPython,
    PropertyElement.is_leaf, PropertyElement.name, PropertyElement.value,
    PropertyElement.elements, PropertyValue.to_python, Except.map]

/-- Claim C10: converting a tree whose third nesting level is a branch drops
that branch's name — its children's entries are merged directly into the
parent branch's map (the right-hand side below does not mention `dName`), and
concretely the tree built from `{"b": {"d": {"e": 1}}}` converts back to
`{"b": {"e": 1}}`. -/
theorem C10_third_level_branch_names_dropped :
    (∀ (rootName bName dName : String) (elems : List PropertyElement),
      property_tree_to_dict
        (PropertyElement.create_branch rootName
          [PropertyElement.create_branch bName
            [PropertyElement.create_branch dName elems]]) =
        [(bName, PyData.pyDict (convChildren [] elems))]) ∧
    ((build_property_tree_from_dict
        [("b", .pyDict [("d", .pyDict [("e", .pyInt 1)])])] "root").map
      property_tree_to_dict = .ok [("b", .pyDict [("e", .pyInt 1)])]) := by
  constructor
  · intro rootName bName dName elems
    have hinner : property_tree_to_dict (PropertyElement.mk dName none elems) =
        convChildren [] elems := by
      rw [property_tree_to_dict]
      simp [PropertyElement.is_leaf, PropertyElement.value, PropertyElement.elements]
    have hnodup : ((convChildren [] elems).map Prod.fst).Nodup := by
      rw [← hinner]
      exact nodup_property_tree_to_dict _
    simp only [PropertyElement.create_branch]
    rw [property_tree_to_dict]
    simp only [PropertyElement.is_leaf, PropertyElement.value, PropertyElement.elements,
      Option.isSome_none, Bool.false_and, Bool.false_eq_true, if_false]
    simp only [convChildren, convSub, PropertyElement.is_leaf, PropertyElement.value,
      PropertyElement.elements, Option.isSome_none, Bool.false_and, Bool.false_eq_true,
      if_false, hinner]
    rw [dictUpdate_nil _ hnodup]
    simp [dictSet]
  · simp [build_property_tree_from_dict, buildEntries, buildEntry, buildSubEntries,
      PropertyElement.create_leaf, PropertyValue.from_python, PropertyElement.create_branch,
      property_tree_to_dict, convChildren, convSub, dictSet, dictUpdate, valueToPython,
      PropertyElement.is_leaf, PropertyElement.name, PropertyElement.value,
      PropertyElement.elements, PropertyValue.to_python, Except.map]

/-! ## Byte and hex helpers for the identifier generator -/

/-- Big-endian byte decomposition of a natural into `len` bytes: the model of
Python `int.to_bytes(len, 'big')` applied to an in-range value. -/
def toBytesBE (len n : Nat) : List Nat :=
  (List.range len).map (fun i => n / 256 ^ (len - 1 - i) % 256)

/-- Uppercase hexadecimal digit of a value below 16. -/
def hexChar (n : Nat) : Char :=
  if n < 10 then Char.ofNat (48 + n) else Char.ofNat (55 + n)

/-- Model of Python `bytes.hex().upper()`: two uppercase hex digits per byte. -/
def bytesToHexUpper (bytes : List Nat) : String :=
  String.mk (bytes.flatMap (fun b => [hexChar (b / 16), hexChar (b % 16)]))

/-! ## SHA-1, the model of the digest behind Python `uuid.uuid5` -/

/-- Left rotation of a 32-bit word in arithmetic form: for `n < 2^32` this is
the usual rotation `((n << k) | (n >> (32 - k))) mod 2^32`. -/
def rotl (k n : Nat) : Nat := (n * 2 ^ k + n / 2 ^ (32 - k)) % 2 ^ 32

/-- SHA-1 message padding: a `0x80` byte, zero bytes up to 56 mod 64, then the
original bit length as 8 big-endian bytes. -/
def sha1Pad (msg : List Nat) : List Nat :=
  msg ++ [0x80] ++ List.replicate ((119 - msg.length % 64) % 64) 0
    ++ toBytesBE 8 (8 * msg.length)

/-- Split a byte list into 64-byte chunks. -/
def chunks64 (l : List Nat) : List (List Nat) :=
  if h : l = [] then [] else l.take 64 :: chunks64 (l.drop 64)
termination_by l.length
decreasing_by
  simp only [List.length_drop]
  have : 0 < l.length := List.length_pos.mpr h
  omega

/-- The sixteen 32-bit big-endian words of a 64-byte block. -/
def blockWords (block : List Nat) : List Nat :=
  (List.range 16).map (fun i =>
    block.getD (4 * i) 0 * 2 ^ 24 + block.getD (4 * i + 1) 0 * 2 ^ 16 +
      block.getD (4 * i + 2) 0 * 2 ^ 8 + block.getD (4 * i + 3) 0)

/-- Message-schedule extension: append `steps` further words, each the
1-rotation of the xor of the words 3, 8, 14 and 16 positions back. -/
def sha1Extend : Nat → List Nat → List Nat
  | 0, ws => ws
  | steps + 1, ws =>
    sha1Extend steps
      (ws ++ [rotl 1 ((ws.getD (ws.length - 3) 0) ^^^ (ws.getD (ws.length - 8) 0) ^^^
        (ws.getD (ws.length - 14) 0) ^^^ (ws.getD (ws.length - 16) 0))])

/-- Round function of SHA-1 (complement written as xor with the 32-bit mask). -/
def sha1F (t b c d : Nat) : Nat :=
  if t < 20 then (b &&& c) ||| ((b ^^^ 0xFFFFFFFF) &&& d)
  else if t < 40 then b ^^^ c ^^^ d
  else if t < 60 then (b &&& c) ||| (b &&& d) ||| (c &&& d)
  else b ^^^ c ^^^ d

/-- Round constants of SHA-1. -/
def sha1K (t : Nat) : Nat :=
  if t < 20 then 0x5A827999
  else if t < 40 then 0x6ED9EBA1
  else if t < 60 then 0x8F1BBCDC
  else 0xCA62C1D6

/-- The five chaining words of the SHA-1 state. -/
structure Sha1State where
  h0 : Nat
  h1 : Nat
  h2 : Nat
  h3 : Nat
  h4 : Nat

/-- Compression of one 64-byte block into the chaining state. -/
def sha1Block (st : Sha1State) (block : List Nat) : Sha1State :=
  let ws := sha1Extend 64 (blockWords block)
  let fin := (List.range 80).foldl
    (fun (p : Nat × Nat × Nat × Nat × Nat) t =>
      let a := p.1
      let b := p.2.1
      let c := p.2.2.1
      let d := p.2.2.2.1
      let e := p.2.2.2.2
      ((rotl 5 a + sha1F t b c d + e + sha1K t + ws.getD t 0) % 2 ^ 32,
        a, rotl 30 b, c, d))
    (st.h0, st.h1, st.h2, st.h3, st.h4)
  ⟨(st.h0 + fin.1) % 2 ^ 32, (st.h1 + fin.2.1) % 2 ^ 32, (st.h2 + fin.2.2.1) % 2 ^ 32,
    (st.h3 + fin.2.2.2.1) % 2 ^ 32, (st.h4 + fin.2.2.2.2) % 2 ^ 32⟩

/-- Big-endian bytes of one 32-bit word (masked to bytes). -/
def wordBytes (w : Nat) : List Nat :=
  [w / 2 ^ 24 % 256, w / 2 ^ 16 % 256, w / 2 ^ 8 % 256, w % 256]

/-- SHA-1 digest (20 bytes) of a byte message. -/
def sha1 (msg : List Nat) : List Nat :=
  let st := (chunks64 (sha1Pad msg)).foldl sha1Block
    ⟨0x67452301, 0xEFCDAB89, 0x98BADCFE, 0x10325476, 0xC3D2E1F0⟩
  [st.h0, st.h1, st.h2, st.h3, st.h4].flatMap wordBytes

/-- UTF-8 encoding of one character, the model of Python `str.encode()`. -/
def utf8Bytes (c : Char) : List Nat :=
  let n := c.toNat
  if n < 0x80 then [n]
  else if n < 0x800 then [0xC0 + n / 64, 0x80 + n % 64]
  else if n < 0x10000 then [0xE0 + n / 4096, 0x80 + n / 64 % 64, 0x80 + n % 64]
  else [0xF0 + n / 262144, 0x80 + n / 4096 % 64, 0x80 + n / 64 % 64, 0x80 + n % 64]

/-- UTF-8 bytes of a string. -/
def strBytes (s : String) : List Nat := s.data.flatMap utf8Bytes

/-- The 16 bytes of a version-5 UUID: the first 16 bytes of the SHA-1 of the
namespace bytes followed by the UTF-8 name, with version nibble `5` in byte 6
and the RFC 4122 variant bits in byte 8. The bit operations are written
arithmetically: `0x50 + b % 16 = (b &&& 0x0F) ||| 0x50` and
`0x80 + b % 64 = (b &&& 0x3F) ||| 0x80`. -/
def uuid5_bytes (nsBytes : List Nat) (name : String) : List Nat :=
  let h := sha1 (nsBytes ++ strBytes name)
  (List.range 16).map (fun i =>
    let b := h.getD i 0
    if i = 6 then 0x50 + b % 16
    else if i = 8 then 0x80 + b % 64
    else b)

/-- Bytes of the RFC 4122 DNS namespace UUID. -/
def NAMESPACE_DNS : List Nat :=
  [0x6b, 0xa7, 0xb8, 0x10, 0x9d, 0xad, 0x11, 0xd1,
   0x80, 0xb4, 0x00, 0xc0, 0x4f, 0xd4, 0x30, 0xc8]

/-- GS1 namespace: `uuid5(NAMESPACE_DNS, "gs1.org")` (dsuid_generator.py). -/
def NAMESPACE_GS1 : List Nat := uuid5_bytes NAMESPACE_DNS "gs1.org"

/-- MAC-address namespace: `uuid5(NAMESPACE_DNS, "macaddress")`. -/
def NAMESPACE_MAC : List Nat := uuid5_bytes NAMESPACE_DNS "macaddress"

/-- EnOcean namespace: `uuid5(NAMESPACE_DNS, "enocean.com")`. -/
def NAMESPACE_ENOCEAN : List Nat := uuid5_bytes NAMESPACE_DNS "enocean.com"

/-! ## String helpers mirroring the Python string methods used -/

/-- Model of Python `str.startswith`. -/
def pyStartsWith (s pre : String) : Bool := pre.data.isPrefixOf s.data

/-- Remove every (non-overlapping, left-to-right) occurrence of a non-empty
pattern, the model of Python `str.replace(pat, "")`. -/
def removeAllList (pat : List Char) (l : List Char) : List Char :=
  if hp : pat = [] then l
  else
    match l with
    | [] => []
    | c :: rest =>
      if pat.isPrefixOf (c :: rest) then removeAllList pat ((c :: rest).drop pat.length)
      else c :: removeAllList pat rest
termination_by l.length
decreasing_by
  · simp only [List.length_drop, List.length_cons]
    cases pat with
    | nil => exact absurd rfl hp
    | cons a t => simp; omega
  · simp

/-- String-level wrapper for `removeAllList`. -/
def removeAll (pat s : String) : String := String.mk (removeAllList pat.data s.data)

/-- ASCII model of Python `str.upper()`. -/
def pyUpper (s : String) : String := String.mk (s.data.map Char.toUpper)

/-- ASCII whitespace stripped by Python `int()`. -/
def isPySpace (c : Char) : Bool :=
  c = ' ' || c = '\t' || c = '\n' || c = '\r' || c = Char.ofNat 11 || c = Char.ofNat 12

/-- ASCII hexadecimal digit (either case). -/
def isHexDigitChar (c : Char) : Bool :=
  ('0' ≤ c && c ≤ '9') || ('a' ≤ c && c ≤ 'f') || ('A' ≤ c && c ≤ 'F')

/-- Numeric value of a hex digit. -/
def hexVal (c : Char) : Nat :=
  if '0' ≤ c && c ≤ '9' then c.toNat - 48
  else if 'a' ≤ c && c ≤ 'f' then c.toNat - 87
  else c.toNat - 55

mutual

/-- Continuation of a hex digit run: digits with single underscores strictly
between digits (no trailing or doubled underscore). -/
def hexTail : List Char → Bool
  | [] => true
  | c :: rest => if c = '_' then hexAfterUnd rest else isHexDigitChar c && hexTail rest

/-- After an underscore a digit must follow. -/
def hexAfterUnd : List Char → Bool
  | [] => false
  | c :: rest => isHexDigitChar c && hexTail rest

end

/-- Non-empty hex digit run with single underscores between digits. -/
def hexRun : List Char → Bool
  | [] => false
  | c :: rest => isHexDigitChar c && hexTail rest

/-- Strip surrounding whitespace, the model of the whitespace tolerance of
Python `int()`. -/
def stripSpaces (l : List Char) : List Char :=
  ((l.dropWhile isPySpace).reverse.dropWhile isPySpace).reverse

/-- Strip one leading sign character. -/
def stripSign (l : List Char) : List Char :=
  match l with
  | c :: rest => if c = '+' || c = '-' then rest else l
  | [] => []

/-- Digits after a `0x` prefix: one leading underscore is allowed. -/
def pyIntAfterPrefix : List Char → Bool
  | c2 :: r => if c2 = '_' then hexRun r else hexRun (c2 :: r)
  | [] => hexRun []

/-- Digits after sign stripping: an optional `0x`/`0X` prefix (which may be
followed by one underscore), then hex digits with single underscores between
digits. -/
def pyIntBody : List Char → Bool
  | c :: x :: rest =>
    if c = '0' && (x = 'x' || x = 'X') then pyIntAfterPrefix rest
    else hexRun (c :: x :: rest)
  | l => hexRun l

/-- Model, over ASCII strings, of whether Python `int(s, 16)` succeeds:
optional surrounding whitespace, an optional sign, then `pyIntBody`. -/
def pyIntValid16 (s : String) : Bool :=
  pyIntBody (stripSign (stripSpaces s.data))

/-- Value of a base-16 literal accepted by `pyIntValid16` (underscores are
skipped, the sign is applied). -/
def pyIntVal16 (s : String) : Int :=
  let l := stripSpaces s.data
  let signAndRest : Int × List Char := match l with
    | c :: rest =>
      if c = '+' then (1, rest) else if c = '-' then (-1, rest) else (1, l)
    | [] => (1, [])
  let l3 := match signAndRest.2 with
    | c :: x :: rest => if c = '0' && (x = 'x' || x = 'X') then rest else signAndRest.2
    | _ => signAndRest.2
  signAndRest.1 *
    Int.ofNat (l3.foldl (fun acc c => if c = '_' then acc else acc * 16 + hexVal c) 0)

/-! ## The dSUID generator (dsuid_generator.py) -/

/-- `validate_dsuid` (dsuid_generator.py lines 312-331): the length must be 34
and Python `int(dsuid, 16)` must succeed. -/
def validate_dsuid (dsuid : String) : Bool :=
  (dsuid.length == 34) && pyIntValid16 dsuid

/-- The `SGTIN96` dataclass. Its fields are Python ints; they are embedded as
naturals (a negative field would make `to_bytes` raise just like an
oversized packed value, so no accepted input is lost). -/
structure SGTIN96 where
  header : Nat
  filter_value : Nat
  partition : Nat
  company_prefix : Nat
  item_reference : Nat
  serial_number : Nat

/-- `SGTIN96.to_bytes` (dsuid_generator.py lines 73-87): fixed-width shifts
packed into 12 bytes; Python `int.to_bytes(12, 'big')` raises `OverflowError`
when the packed value does not fit in 96 bits. -/
def SGTIN96.to_bytes (s : SGTIN96) : Except String (List Nat) :=
  let value := (s.header <<< 88) ||| (s.filter_value <<< 85) ||| (s.partition <<< 82) |||
    (s.company_prefix <<< 42) ||| (s.item_reference <<< 38) ||| s.serial_number
  if value < 2 ^ 96 then .ok (toBytesBE 12 value) else .error "int too big to convert"

/-- `generate_dsuid_from_sgtin96`: the 12 SGTIN bytes padded with 5 zero
bytes, rendered as uppercase hex. -/
def generate_dsuid_from_sgtin96 (sgtin96 : SGTIN96) : Except String String :=
  match sgtin96.to_bytes with
  | .ok sgtin_bytes => .ok (bytesToHexUpper (sgtin_bytes ++ [0, 0, 0, 0, 0]))
  | .error e => .error e

/-- `generate_dsuid_from_gtin_serial`: UUIDv5 of `"(01)<gtin>(21)<serial>"` in
the GS1 namespace, plus one zero byte. -/
def generate_dsuid_from_gtin_serial (gtin serial : String) : String :=
  bytesToHexUpper (uuid5_bytes NAMESPACE_GS1 ("(01)" ++ gtin ++ "(21)" ++ serial) ++ [0])

/-- Model of the Python `uuid.UUID(str)` constructor as used by
`generate_dsuid_from_uuid`: remove every occurrence of `urn:` and `uuid:`,
strip surrounding braces, remove hyphens; the remainder must be exactly 32
characters and parse under `int(_, 16)`; the value is returned as 16
big-endian bytes. -/
def parseUUIDBytes (uuid_str : String) : Except String (List Nat) :=
  let hx := removeAll "-" (stripBraces (removeAll "uuid:" (removeAll "urn:" uuid_str)))
  if hx.length == 32 then
    if pyIntValid16 hx then
      if pyIntVal16 hx < 0 then .error "int is out of range (need a 128-bit value)"
      else .ok (toBytesBE 16 (pyIntVal16 hx).toNat)
    else .error "badly formed hexadecimal UUID string"
  else .error "badly formed hexadecimal UUID string"
where
  /-- Python `str.strip('{}')`: repeatedly drop leading and trailing braces. -/
  stripBraces (s : String) : String :=
    String.mk (((s.data.dropWhile fun c => c = '{' || c = '}').reverse.dropWhile
      fun c => c = '{' || c = '}').reverse)

/-- `generate_dsuid_from_uuid`: the 16 UUID bytes plus one zero byte. -/
def generate_dsuid_from_uuid (uuid_str : String) : Except String String :=
  match parseUUIDBytes uuid_str with
  | .ok bs => .ok (bytesToHexUpper (bs ++ [0]))
  | .error e => .error e

/-- MAC normalization in `generate_dsuid_from_mac`: strip `:`, `-` and `.`
separators and uppercase. -/
def normalizeMac (mac_address : String) : String :=
  pyUpper (removeAll "." (removeAll "-" (removeAll ":" mac_address)))

/-- `generate_dsuid_from_mac` (dsuid_generator.py lines 164-188): raises on a
normalized length other than 12, otherwise UUIDv5 of the cleaned address in
the MAC namespace plus one zero byte. -/
def generate_dsuid_from_mac (mac_address : String) : Except String String :=
  let mac_clean := normalizeMac mac_address
  if mac_clean.length ≠ 12 then .error ("Invalid MAC address: " ++ mac_address)
  else .ok (bytesToHexUpper (uuid5_bytes NAMESPACE_MAC mac_clean ++ [0]))

/-- `generate_dsuid_from_enocean`: raises on a normalized length other than 8,
otherwise UUIDv5 in the EnOcean namespace plus one zero byte. -/
def generate_dsuid_from_enocean (enocean_address : String) : Except String String :=
  let enocean_clean := pyUpper (removeAll " " enocean_address)
  if enocean_clean.length ≠ 8 then .error ("Invalid EnOcean address: " ++ enocean_address)
  else .ok (bytesToHexUpper (uuid5_bytes NAMESPACE_ENOCEAN enocean_clean ++ [0]))

/-- `generate_dsuid_from_name`: UUIDv5 of the name in the given namespace
(default DNS) plus one zero byte. This rule never raises. -/
def generate_dsuid_from_name (name : String) (ns : Option (List Nat)) : String :=
  bytesToHexUpper (uuid5_bytes (ns.getD NAMESPACE_DNS) name ++ [0])

/-- `generate_random_dsuid`: model of `uuid.uuid4().bytes + b"\x00"`. The
random source is passed explicitly; `os.urandom` yields bytes below 256,
which the mask enforces; bytes 6 and 8 receive the version-4 and variant
bits. -/
def generate_random_dsuid (randBytes : List Nat) : String :=
  let rb := (List.range 16).map (fun i =>
    let b := randBytes.getD i 0 % 256
    if i = 6 then 0x40 + b % 16 else if i = 8 then 0x80 + b % 64 else b)
  bytesToHexUpper (rb ++ [0])

/-- Word character of the regex class `\w` (ASCII model). -/
def isWordChar (c : Char) : Bool := c.isAlphanum || c = '_'

/-- Try to match `\(01\)(\d+)\(21\)(\w+)` at the start of `l`. The greedy
digit and word runs need no backtracking: a digit run can only be followed by
a non-digit and `(` is not a digit, so the maximal run is the only
candidate. -/
def gs1MatchAt (l : List Char) : Option (String × String) :=
  if ("(01)".data).isPrefixOf l then
    let after := l.drop 4
    let ds := after.takeWhile Char.isDigit
    if ds = [] then none
    else
      let after2 := after.drop ds.length
      if ("(21)".data).isPrefixOf after2 then
        let ws := (after2.drop 4).takeWhile isWordChar
        if ws = [] then none else some (String.mk ds, String.mk ws)
      else none
  else none

/-- Leftmost match of the GS1 pattern anywhere in the text, the model of
`re.search(r'\(01\)(\d+)\(21\)(\w+)', s)`. -/
def gs1Search : List Char → Option (String × String)
  | [] => none
  | c :: rest =>
    match gs1MatchAt (c :: rest) with
    | some r => some r
    | none => gs1Search rest

/-- String-level wrapper for `gs1Search`. -/
def gs1Match (s : String) : Option (String × String) := gs1Search s.data

/-- Python `s.split(":", 1)[1]` for a string known to contain a colon. -/
def afterFirstColon (s : String) : String :=
  String.mk ((s.data.dropWhile (fun c => c ≠ ':')).drop 1)

/-- `generate_dsuid_from_hardware_guid` (dsuid_generator.py lines 262-309):
empty input raises; a `gs1:` string whose embedded GTIN and serial parse is
dispatched to the GTIN rule — when the regex does not match, control falls
through the remaining prefix checks to the name rule; `macaddress:`,
`enoceanaddress:` and `uuid:` prefixes dispatch to their rules; anything else
is used as a name in the DNS namespace. -/
def generate_dsuid_from_hardware_guid (hardware_guid : String) : Except String String :=
  if hardware_guid = "" then .error "hardware_guid cannot be empty"
  else
    match (if pyStartsWith hardware_guid "gs1:" then gs1Match hardware_guid else none) with
    | some (gtin, serial) => .ok (generate_dsuid_from_gtin_serial gtin serial)
    | none =>
      if pyStartsWith hardware_guid "macaddress:" then
        generate_dsuid_from_mac (afterFirstColon hardware_guid)
      else if pyStartsWith hardware_guid "enoceanaddress:" then
        generate_dsuid_from_enocean (afterFirstColon hardware_guid)
      else if pyStartsWith hardware_guid "uuid:" then
        generate_dsuid_from_uuid (afterFirstColon hardware_guid)
      else .ok (generate_dsuid_from_name hardware_guid none)

/-- The keyword arguments of `generate_dsuid`, all optional. -/
structure DsuidSources where
  sgtin96 : Option SGTIN96 := none
  gtin : Option String := none
  serial : Option String := none
  existing_uuid : Option String := none
  hardware_guid : Option String := none
  mac_address : Option String := none
  enocean_address : Option String := none
  unique_name : Option String := none

/-- `generate_dsuid` (dsuid_generator.py lines 354-433): strict priority
order over the sources; the GTIN rule fires only when both `gtin` and
`serial` are present; with no source at all, the random rule consumes the
explicit random byte source. -/
def generate_dsuid (randBytes : List Nat) (src : DsuidSources) : Except String String :=
  match src.sgtin96 with
  | some s => generate_dsuid_from_sgtin96 s
  | none =>
    match src.gtin, src.serial with
    | some g, some sr => .ok (generate_dsuid_from_gtin_serial g sr)
    | _, _ =>
      match src.existing_uuid with
      | some u => generate_dsuid_from_uuid u
      | none =>
        match src.hardware_guid with
        | some hg => generate_dsuid_from_hardware_guid hg
        | none =>
          match src.mac_address with
          | some m => generate_dsuid_from_mac m
          | none =>
            match src.enocean_address with
            | some e => generate_dsuid_from_enocean e
            | none =>
              match src.unique_name with
              | some n => .ok (generate_dsuid_from_name n none)
              | none => .ok (generate_random_dsuid randBytes)

/-! ## Well-formedness of generated identifiers -/

/-- Uppercase hexadecimal character. -/
def isUpperHexChar (c : Char) : Bool :=
  ('0' ≤ c && c ≤ '9') || ('A' ≤ c && c ≤ 'F')

lemma length_toBytesBE (len n : Nat) : (toBytesBE len n).length = len := by
  simp [toBytesBE]

lemma mem_toBytesBE_lt {len n b : Nat} (h : b ∈ toBytesBE len n) : b < 256 := by
  simp only [toBytesBE, List.mem_map] at h
  obtain ⟨i, _, rfl⟩ := h
  exact Nat.mod_lt _ (by norm_num)

lemma mem_wordBytes_lt {w b : Nat} (h : b ∈ wordBytes w) : b < 256 := by
  simp only [wordBytes, List.mem_cons, List.not_mem_nil, or_false] at h
  rcases h with rfl | rfl | rfl | rfl <;> exact Nat.mod_lt _ (by norm_num)

lemma sha1_length (msg : List Nat) : (sha1 msg).length = 20 := by
  simp [sha1, wordBytes]

lemma mem_sha1_lt {msg : List Nat} {b : Nat} (h : b ∈ sha1 msg) : b < 256 := by
  simp only [sha1, List.mem_flatMap] at h
  obtain ⟨w, _, hb⟩ := h
  exact mem_wordBytes_lt hb

lemma getD_lt_of_all {l : List Nat} {n : Nat} (hall : ∀ b ∈ l, b < n) :
    ∀ {i d : Nat}, d < n → l.getD i d < n := by
  induction l with
  | nil => intro i d hd; simpa [List.getD] using hd
  | cons x xs ih =>
    intro i d hd
    cases i with
    | zero => simpa using hall x (by simp)
    | succ j =>
      simp only [List.getD_cons_succ]
      exact ih (fun b hb => hall b (by simp [hb])) hd

lemma uuid5_length (ns : List Nat) (name : String) :
    (uuid5_bytes ns name).length = 16 := by
  simp [uuid5_bytes]

lemma mem_uuid5_lt {ns : List Nat} {name : String} {b : Nat}
    (h : b ∈ uuid5_bytes ns name) : b < 256 := by
  simp only [uuid5_bytes, List.mem_map, List.mem_range] at h
  obtain ⟨i, _, rfl⟩ := h
  split
  · have : (sha1 (ns ++ strBytes name)).getD i 0 % 16 < 16 := Nat.mod_lt _ (by norm_num)
    omega
  · split
    · have : (sha1 (ns ++ strBytes name)).getD i 0 % 64 < 64 := Nat.mod_lt _ (by norm_num)
      omega
    · exact getD_lt_of_all (fun b hb => mem_sha1_lt hb) (by norm_num)

/-- The sixteen uppercase hex digit characters. -/
def upperHexDigits : List Char := "0123456789ABCDEF".data

lemma hexChar_mem_upperHexDigits {n : Nat} (h : n < 16) : hexChar n ∈ upperHexDigits := by
  interval_cases n <;> decide

lemma upperHex_of_mem {c : Char} (h : c ∈ upperHexDigits) : isUpperHexChar c = true := by
  fin_cases h <;> decide

lemma hexDigit_of_upperHex {c : Char} (h : isUpperHexChar c = true) :
    isHexDigitChar c = true := by
  simp only [isUpperHexChar, Bool.or_eq_true, Bool.and_eq_true] at h
  simp only [isHexDigitChar, Bool.or_eq_true, Bool.and_eq_true]
  tauto

lemma not_space_of_hexDigit {c : Char} (h : isHexDigitChar c = true) :
    isPySpace c = false := by
  cases hsp : isPySpace c
  · rfl
  · exfalso
    have hc := hsp
    simp only [isPySpace, Bool.or_eq_true, decide_eq_true_eq] at hc
    rcases hc with ((((rfl | rfl) | rfl) | rfl) | rfl) | rfl <;> exact absurd h (by decide)

lemma not_sign_of_hexDigit {c : Char} (h : isHexDigitChar c = true) :
    (c = '+' || c = '-') = false := by
  by_cases h1 : c = '+'
  · subst h1; exact absurd h (by decide)
  · by_cases h2 : c = '-'
    · subst h2; exact absurd h (by decide)
    · simp [h1, h2]

lemma not_underscore_of_hexDigit {c : Char} (h : isHexDigitChar c = true) : ¬c = '_' := by
  rintro rfl
  exact absurd h (by decide)

lemma not_x_of_hexDigit {c : Char} (h : isHexDigitChar c = true) :
    (c = 'x' || c = 'X') = false := by
  by_cases h1 : c = 'x'
  · subst h1; exact absurd h (by decide)
  · by_cases h2 : c = 'X'
    · subst h2; exact absurd h (by decide)
    · simp [h1, h2]

lemma hexTail_of_all {l : List Char} (hall : ∀ c ∈ l, isHexDigitChar c = true) :
    hexTail l = true := by
  induction l with
  | nil => rfl
  | cons c rest ih =>
    rw [hexTail, if_neg (not_underscore_of_hexDigit (hall c (by simp)))]
    simp only [Bool.and_eq_true]
    exact ⟨hall c (by simp), ih (fun d hd => hall d (by simp [hd]))⟩

lemma hexRun_of_all {l : List Char} (hne : l ≠ [])
    (hall : ∀ c ∈ l, isHexDigitChar c = true) : hexRun l = true := by
  cases l with
  | nil => exact absurd rfl hne
  | cons c rest =>
    rw [hexRun]
    simp only [Bool.and_eq_true]
    exact ⟨hall c (by simp), hexTail_of_all (fun d hd => hall d (by simp [hd]))⟩

lemma stripSpaces_of_all_hex {l : List Char}
    (hall : ∀ c ∈ l, isHexDigitChar c = true) : stripSpaces l = l := by
  cases l with
  | nil => rfl
  | cons c rest =>
    have hc : isHexDigitChar c = true := hall c (by simp)
    have hdrop1 : (c :: rest).dropWhile isPySpace = c :: rest := by
      simp [List.dropWhile_cons, not_space_of_hexDigit hc]
    have hrev : ∃ c' t, (c :: rest).reverse = c' :: t := by
      rcases h : (c :: rest).reverse with _ | ⟨c', t⟩
      · exfalso
        have := congrArg List.length h
        simp at this
      · exact ⟨c', t, rfl⟩
    obtain ⟨c', t, hrev⟩ := hrev
    have hc' : isHexDigitChar c' = true :=
      hall c' (List.mem_reverse.mp (by simp [hrev]))
    have hdrop2 : ((c :: rest).reverse).dropWhile isPySpace = (c :: rest).reverse := by
      rw [hrev]
      simp [List.dropWhile_cons, not_space_of_hexDigit hc']
    rw [stripSpaces, hdrop1, hdrop2, List.reverse_reverse]

lemma stripSign_of_all_hex {l : List Char}
    (hall : ∀ c ∈ l, isHexDigitChar c = true) : stripSign l = l := by
  cases l with
  | nil => rfl
  | cons c rest =>
    rw [stripSign]
    rw [if_neg (by simp [not_sign_of_hexDigit (hall c (by simp))])]

lemma pyIntBody_of_all_hex {l : List Char} (hne : l ≠ [])
    (hall : ∀ c ∈ l, isHexDigitChar c = true) : pyIntBody l = true := by
  match l with
  | [] => exact absurd rfl hne
  | [c] => exact hexRun_of_all (by simp) hall
  | c :: x :: r =>
    have hx : isHexDigitChar x = true := hall x (by simp)
    have hcond : (c = '0' && (x = 'x' || x = 'X')) = false := by
      simp [not_x_of_hexDigit hx]
    rw [pyIntBody, hcond]
    simp only [Bool.false_eq_true, if_false]
    exact hexRun_of_all (by simp) hall

lemma pyIntValid16_of_all_hex {l : List Char} (hne : l ≠ [])
    (hall : ∀ c ∈ l, isHexDigitChar c = true) : pyIntValid16 (String.mk l) = true := by
  show pyIntBody (stripSign (stripSpaces l)) = true
  rw [stripSpaces_of_all_hex hall, stripSign_of_all_hex hall]
  exact pyIntBody_of_all_hex hne hall

lemma length_hexlist (bs : List Nat) :
    (bs.flatMap (fun b => [hexChar (b / 16), hexChar (b % 16)])).length = 2 * bs.length := by
  induction bs with
  | nil => rfl
  | cons b rest ih => simp [ih]; omega

lemma mem_hexlist {bs : List Nat} (hall : ∀ b ∈ bs, b < 256) {c : Char}
    (h : c ∈ bs.flatMap (fun b => [hexChar (b / 16), hexChar (b % 16)])) :
    c ∈ upperHexDigits := by
  simp only [List.mem_flatMap, List.mem_cons, List.not_mem_nil, or_false] at h
  obtain ⟨b, hb, hc⟩ := h
  have hb256 : b < 256 := hall b hb
  rcases hc with rfl | rfl
  · exact hexChar_mem_upperHexDigits (Nat.div_lt_of_lt_mul (by omega))
  · exact hexChar_mem_upperHexDigits (Nat.mod_lt _ (by norm_num))

/-- Main well-formedness fact: the hex rendering of 17 in-range bytes has
length 34, consists of uppercase hex digits, and passes `validate_dsuid`. -/
lemma bytesToHexUpper_wellFormed {bs : List Nat} (hlen : bs.length = 17)
    (hall : ∀ b ∈ bs, b < 256) :
    (bytesToHexUpper bs).length = 34 ∧
      (∀ c ∈ (bytesToHexUpper bs).data, isUpperHexChar c = true) ∧
      validate_dsuid (bytesToHexUpper bs) = true := by
  have hlen34 : (bytesToHexUpper bs).length = 34 := by
    show (bs.flatMap (fun b => [hexChar (b / 16), hexChar (b % 16)])).length = 34
    rw [length_hexlist, hlen]
  have hmem : ∀ c ∈ (bytesToHexUpper bs).data, isUpperHexChar c = true := by
    intro c hc
    exact upperHex_of_mem (mem_hexlist hall hc)
  refine ⟨hlen34, hmem, ?_⟩
  have hne : (bytesToHexUpper bs).data ≠ [] := by
    intro h
    have : (bytesToHexUpper bs).length = 0 := by
      show (bytesToHexUpper bs).data.length = 0
      simp [h]
    omega
  have hvalid : pyIntValid16 (bytesToHexUpper bs) = true := by
    have := pyIntValid16_of_all_hex hne
      (fun c hc => hexDigit_of_upperHex (hmem c hc))
    simpa using this
  simp [validate_dsuid, hlen34, hvalid]

/-- Shape of every successful identifier: 34 chars, uppercase hex, valid. -/
def dsuidWellFormed (out : String) : Prop :=
  out.length = 34 ∧ (∀ c ∈ out.data, isUpperHexChar c = true) ∧
    validate_dsuid out = true

lemma gtin_serial_wellFormed (gtin serial : String) :
    dsuidWellFormed (generate_dsuid_from_gtin_serial gtin serial) := by
  refine bytesToHexUpper_wellFormed ?_ ?_
  · simp [uuid5_length]
  · intro b hb
    rcases List.mem_append.mp hb with h | h
    · exact mem_uuid5_lt h
    · simp only [List.mem_singleton] at h
      omega

lemma name_wellFormed (name : String) (ns : Option (List Nat)) :
    dsuidWellFormed (generate_dsuid_from_name name ns) := by
  refine bytesToHexUpper_wellFormed ?_ ?_
  · simp [uuid5_length]
  · intro b hb
    rcases List.mem_append.mp hb with h | h
    · exact mem_uuid5_lt h
    · simp only [List.mem_singleton] at h
      omega

lemma random_wellFormed (randBytes : List Nat) :
    dsuidWellFormed (generate_random_dsuid randBytes) := by
  refine bytesToHexUpper_wellFormed ?_ ?_
  · simp [generate_random_dsuid]
  · intro b hb
    simp only [generate_random_dsuid] at hb
    rcases List.mem_append.mp hb with h | h
    · simp only [List.mem_map, List.mem_range] at h
      obtain ⟨i, _, rfl⟩ := h
      have h16 : randBytes.getD i 0 % 256 % 16 < 16 := Nat.mod_lt _ (by norm_num)
      have h64 : randBytes.getD i 0 % 256 % 64 < 64 := Nat.mod_lt _ (by norm_num)
      have h256 : randBytes.getD i 0 % 256 < 256 := Nat.mod_lt _ (by norm_num)
      split
      · omega
      · split
        · omega
        · omega
    · simp only [List.mem_singleton] at h
      omega

lemma sgtin96_ok_wellFormed {s : SGTIN96} {out : String}
    (h : generate_dsuid_from_sgtin96 s = .ok out) : dsuidWellFormed out := by
  rw [generate_dsuid_from_sgtin96] at h
  split at h
  · next bs hbs =>
    rw [SGTIN96.to_bytes] at hbs
    split at hbs
    · cases hbs
      cases h
      refine bytesToHexUpper_wellFormed ?_ ?_
      · simp [length_toBytesBE]
      · intro b hb
        rcases List.mem_append.mp hb with h' | h'
        · exact mem_toBytesBE_lt h'
        · simp only [List.mem_cons, List.not_mem_nil, or_false] at h'
          rcases h' with rfl | rfl | rfl | rfl | rfl <;> omega
    · cases hbs
  · cases h

lemma uuid_ok_wellFormed {u out : String}
    (h : generate_dsuid_from_uuid u = .ok out) : dsuidWellFormed out := by
  rw [generate_dsuid_from_uuid] at h
  split at h
  · next bs hbs =>
    rw [parseUUIDBytes] at hbs
    split at hbs
    · split at hbs
      · split at hbs
        · cases hbs
        · cases hbs
          cases h
          refine bytesToHexUpper_wellFormed ?_ ?_
          · simp [length_toBytesBE]
          · intro b hb
            rcases List.mem_append.mp hb with h' | h'
            · exact mem_toBytesBE_lt h'
            · simp only [List.mem_singleton] at h'
              omega
      · cases hbs
    · cases hbs
  · cases h

lemma mac_ok_wellFormed {m out : String}
    (h : generate_dsuid_from_mac m = .ok out) : dsuidWellFormed out := by
  rw [generate_dsuid_from_mac] at h
  split at h
  · cases h
  · cases h
    refine bytesToHexUpper_wellFormed ?_ ?_
    · simp [uuid5_length]
    · intro b hb
      rcases List.mem_append.mp hb with h' | h'
      · exact mem_uuid5_lt h'
      · simp only [List.mem_singleton] at h'
        omega

lemma enocean_ok_wellFormed {e out : String}
    (h : generate_dsuid_from_enocean e = .ok out) : dsuidWellFormed out := by
  rw [generate_dsuid_from_enocean] at h
  split at h
  · cases h
  · cases h
    refine bytesToHexUpper_wellFormed ?_ ?_
    · simp [uuid5_length]
    · intro b hb
      rcases List.mem_append.mp hb with h' | h'
      · exact mem_uuid5_lt h'
      · simp only [List.mem_singleton] at h'
        omega

lemma hardware_guid_ok_wellFormed {g out : String}
    (h : generate_dsuid_from_hardware_guid g = .ok out) : dsuidWellFormed out := by
  rw [generate_dsuid_from_hardware_guid] at h
  split at h
  · cases h
  · split at h
    · next p heq =>
      cases h
      exact gtin_serial_wellFormed _ _
    · split at h
      · exact mac_ok_wellFormed h
      · split at h
        · exact enocean_ok_wellFormed h
        · split at h
          · exact uuid_ok_wellFormed h
          · cases h
            exact name_wellFormed _ _

/-- Every successful output of `generate_dsuid`, whichever rule fired, is
well-formed. -/
lemma generate_dsuid_ok_wellFormed {randBytes : List Nat} {src : DsuidSources}
    {out : String} (h : generate_dsuid randBytes src = .ok out) :
    dsuidWellFormed out := by
  rw [generate_dsuid] at h
  rcases src with ⟨sg, g, sr, eu, hg, ma, ea, un⟩
  dsimp only at h
  cases sg with
  | some s => exact sgtin96_ok_wellFormed h
  | none =>
    cases g with
    | some gv =>
      cases sr with
      | some srv =>
        cases h
        exact gtin_serial_wellFormed _ _
      | none =>
        cases eu with
        | some u => exact uuid_ok_wellFormed h
        | none =>
          cases hg with
          | some hgv => exact hardware_guid_ok_wellFormed h
          | none =>
            cases ma with
            | some m => exact mac_ok_wellFormed h
            | none =>
              cases ea with
              | some e => exact enocean_ok_wellFormed h
              | none =>
                cases un with
                | some n => cases h; exact name_wellFormed _ _
                | none => cases h; exact random_wellFormed _
    | none =>
      cases eu with
      | some u => exact uuid_ok_wellFormed h
      | none =>
        cases hg with
        | some hgv => exact hardware_guid_ok_wellFormed h
        | none =>
          cases ma with
          | some m => exact mac_ok_wellFormed h
          | none =>
            cases ea with
            | some e => exact enocean_ok_wellFormed h
            | none =>
              cases un with
              | some n => cases h; exact name_wellFormed _ _
              | none => cases h; exact random_wellFormed _

/-- A non-random generation rule is selected by the priority chain exactly
when some source other than the random fallback fires (the GTIN rule needs
both the trade-item number and the serial). -/
def selectsNonRandomRule (src : DsuidSources) : Bool :=
  src.sgtin96.isSome || (src.gtin.isSome && src.serial.isSome) || src.existing_uuid.isSome ||
    src.hardware_guid.isSome || src.mac_address.isSome || src.enocean_address.isSome ||
    src.unique_name.isSome

/-- Claim C5: every successful output of `generate_dsuid`, whichever rule
fired (SGTIN-96 direct packing and the random fallback included), is exactly
34 uppercase hexadecimal characters and passes `validate_dsuid`. -/
theorem C5_generate_dsuid_output_valid :
    ∀ (randBytes : List Nat) (src : DsuidSources) (out : String),
      generate_dsuid randBytes src = .ok out →
      out.length = 34 ∧ (∀ c ∈ out.data, isUpperHexChar c = true) ∧
        validate_dsuid out = true :=
  fun _ _ _ h => generate_dsuid_ok_wellFormed h

/-- Witness for C5: a concrete SGTIN-96 input produces a concrete valid
34-character identifier. -/
theorem C5_generate_dsuid_output_valid_witness :
    generate_dsuid [] { sgtin96 := some ⟨0x30, 0, 0, 0, 0, 0⟩ } =
        .ok "3000000000000000000000000000000000" ∧
      ("3000000000000000000000000000000000".length = 34 ∧
        (∀ c ∈ "3000000000000000000000000000000000".data, isUpperHexChar c = true) ∧
        validate_dsuid "3000000000000000000000000000000000" = true) :=
  ⟨by rfl,
    C5_generate_dsuid_output_valid [] { sgtin96 := some ⟨0x30, 0, 0, 0, 0, 0⟩ }
      "3000000000000000000000000000000000" (by rfl)⟩

/-- Claim C4: whenever a non-random rule is selected, the result does not
depend on the random byte source — two runs on identical input produce the
identical output — and any successful output is a 34-character string. -/
theorem C4_generate_dsuid_deterministic :
    ∀ (r1 r2 : List Nat) (src : DsuidSources), selectsNonRandomRule src = true →
      generate_dsuid r1 src = generate_dsuid r2 src ∧
        (∀ out, generate_dsuid r1 src = .ok out → out.length = 34) := by
  intro r1 r2 src h
  refine ⟨?_, fun out ho => (generate_dsuid_ok_wellFormed ho).1⟩
  rcases src with ⟨sg, g, sr, eu, hg, ma, ea, un⟩
  cases sg <;> cases g <;> cases sr <;> cases eu <;> cases hg <;> cases ma <;>
    cases ea <;> cases un <;>
    first
      | rfl
      | simp [selectsNonRandomRule] at h

/-- Witness for C4: the unique-name rule ignores the random source. -/
theorem C4_generate_dsuid_deterministic_witness :
    selectsNonRandomRule { unique_name := some "sensor.living_room_temperature" } = true ∧
      (generate_dsuid [] { unique_name := some "sensor.living_room_temperature" } =
          generate_dsuid [7, 7, 7] { unique_name := some "sensor.living_room_temperature" } ∧
        (∀ out,
          generate_dsuid [] { unique_name := some "sensor.living_room_temperature" } =
            .ok out → out.length = 34)) :=
  ⟨rfl, C4_generate_dsuid_deterministic [] [7, 7, 7] _ rfl⟩

/-- Counterexample to C3 as stated: a `gs1:` hardware GUID whose embedded
fields cannot be parsed ("ABC" is not a digit string) does not raise — the
call succeeds by falling back to the unique-name rule on the whole string. -/
theorem C3_counterexample_gs1_fallback :
    pyStartsWith "gs1:(01)ABC(21)123" "gs1:" = true ∧
      gs1Match "gs1:(01)ABC(21)123" = none ∧
      generate_dsuid_from_hardware_guid "gs1:(01)ABC(21)123" =
        .ok (generate_dsuid_from_name "gs1:(01)ABC(21)123" none) :=
  ⟨rfl, by rfl, by rfl⟩

/-- Amended C3: the MAC rule raises on any address that does not normalize to
12 characters, and the EnOcean rule on any address that does not normalize to
8 characters; but a `gs1:` hardware GUID whose embedded GTIN/serial fields
cannot be parsed falls back silently to the unique-name rule instead of
raising. -/
theorem C3_amended_malformed_input :
    (∀ mac : String, (normalizeMac mac).length ≠ 12 →
      generate_dsuid_from_mac mac = .error ("Invalid MAC address: " ++ mac)) ∧
    (∀ e : String, (pyUpper (removeAll " " e)).length ≠ 8 →
      generate_dsuid_from_enocean e = .error ("Invalid EnOcean address: " ++ e)) ∧
    (∀ g : String, pyStartsWith g "gs1:" = true → gs1Match g = none →
      generate_dsuid_from_hardware_guid g = .ok (generate_dsuid_from_name g none)) := by
  refine ⟨?_, ?_, ?_⟩
  · intro mac h
    simp only [generate_dsuid_from_mac]
    rw [if_pos h]
  · intro e h
    simp only [generate_dsuid_from_enocean]
    rw [if_pos h]
  · intro g hpre hnone
    have hprefix : "gs1:".data <+: g.data := by
      have hp := hpre
      simp only [pyStartsWith] at hp
      exact List.isPrefixOf_iff_prefix.mp hp
    obtain ⟨t, ht⟩ := hprefix
    have hgdata : g.data = 'g' :: (['s', '1', ':'] ++ t) := by
      rw [← ht]
      rfl
    have hne : ¬(g = "") := by
      intro hg
      subst hg
      simp at ht
    have hm : pyStartsWith g "macaddress:" = false := by
      show "macaddress:".data.isPrefixOf g.data = false
      rw [hgdata]
      rfl
    have hen : pyStartsWith g "enoceanaddress:" = false := by
      show "enoceanaddress:".data.isPrefixOf g.data = false
      rw [hgdata]
      rfl
    have hu : pyStartsWith g "uuid:" = false := by
      show "uuid:".data.isPrefixOf g.data = false
      rw [hgdata]
      rfl
    rw [generate_dsuid_from_hardware_guid, if_neg hne]
    simp only [hpre, if_true, hnone, hm, hen, hu, Bool.false_eq_true, if_false]

/-- Witness for the amended C3 at concrete inputs: a five-digit MAC raises,
and a concrete unparsable `gs1:` GUID falls back to the name rule. -/
theorem C3_amended_malformed_input_witness :
    ((normalizeMac "12345").length ≠ 12 ∧
      generate_dsuid_from_mac "12345" = .error ("Invalid MAC address: " ++ "12345")) ∧
    (pyStartsWith "gs1:(01)X(21)Y" "gs1:" = true ∧ gs1Match "gs1:(01)X(21)Y" = none ∧
      generate_dsuid_from_hardware_guid "gs1:(01)X(21)Y" =
        .ok (generate_dsuid_from_name "gs1:(01)X(21)Y" none)) :=
  ⟨⟨by simp [normalizeMac, pyUpper, removeAll, removeAllList]; decide,
    C3_amended_malformed_input.1 "12345"
      (by simp [normalizeMac, pyUpper, removeAll, removeAllList]; decide)⟩,
   ⟨rfl, by rfl, C3_amended_malformed_input.2.2 "gs1:(01)X(21)Y" rfl (by rfl)⟩⟩

/-- Counterexample to C6 as stated: `validate_dsuid` accepts this 34-character
string although it contains the non-hex character `x`, because Python
`int(s, 16)` accepts a `0x` prefix. -/
theorem C6_counterexample_0x_prefix :
    validate_dsuid "0x123456789ABCDEF0123456789ABCDEF0" = true ∧
      "0x123456789ABCDEF0123456789ABCDEF0".data.all isHexDigitChar = false ∧
      "0x123456789ABCDEF0123456789ABCDEF0".length = 34 :=
  ⟨by rfl, by rfl, rfl⟩

/-- Amended C6: `validate_dsuid` accepts every 34-character string of hex
digits and rejects every string whose length is not 34; but among
34-character strings it also accepts the wider Python base-16 integer formats
(sign, surrounding whitespace, `0x`/`0X` prefix, underscores between digits),
so containing only hex digits is sufficient, not necessary. -/
theorem C6_amended_validate_characterization :
    ∀ s : String,
      (s.length = 34 → (∀ c ∈ s.data, isHexDigitChar c = true) →
        validate_dsuid s = true) ∧
      (validate_dsuid s = true → s.length = 34) := by
  intro s
  constructor
  · intro hlen hall
    have hne : s.data ≠ [] := by
      intro h
      have hz : s.length = 0 := by
        show s.data.length = 0
        simp [h]
      omega
    have hv : pyIntValid16 s = true := pyIntValid16_of_all_hex hne hall
    simp [validate_dsuid, hlen, hv]
  · intro hv
    simp only [validate_dsuid, Bool.and_eq_true, beq_iff_eq] at hv
    exact hv.1

/-! ## The message layer: builder, handler, dispatcher -/

/-- Modelled from the spec: the wire message-type tags of the protocol (the
generated protobuf module `genericVDC_pb2` is not under src/); the
constructor names are the ones the handler and builder code refers to, with
the local-priority tag (`..._SET_LOCAL_PRIO` on the wire) spelled out. -/
inductive MsgType where
  | VDSM_REQUEST_HELLO
  | VDSM_REQUEST_GET_PROPERTY
  | VDSM_REQUEST_SET_PROPERTY
  | VDSM_REQUEST_GENERIC_REQUEST
  | VDSM_SEND_PING
  | VDSM_SEND_REMOVE
  | VDSM_SEND_BYE
  | VDSM_NOTIFICATION_CALL_SCENE
  | VDSM_NOTIFICATION_SAVE_SCENE
  | VDSM_NOTIFICATION_UNDO_SCENE
  | VDSM_NOTIFICATION_SET_LOCAL_PRIORITY
  | VDSM_NOTIFICATION_CALL_MIN_SCENE
  | VDSM_NOTIFICATION_IDENTIFY
  | VDSM_NOTIFICATION_SET_CONTROL_VALUE
  | VDSM_NOTIFICATION_DIM_CHANNEL
  | VDSM_NOTIFICATION_SET_OUTPUT_CHANNEL_VALUE
  | GENERIC_RESPONSE
  | VDC_RESPONSE_HELLO
  | VDC_RESPONSE_GET_PROPERTY
  | VDC_SEND_PUSH_PROPERTY
  | VDC_SEND_ANNOUNCE_DEVICE
  | VDC_SEND_ANNOUNCE_VDC
  | VDC_SEND_VANISH
  | VDC_SEND_PONG
deriving DecidableEq, Repr

/-- Modelled from the spec: messages classified as notifications carry no
meaningful correlation id and never expect a reply; on the wire these are the
`VDSM_NOTIFICATION_*` tags. -/
def isNotification : MsgType → Bool
  | .VDSM_NOTIFICATION_CALL_SCENE | .VDSM_NOTIFICATION_SAVE_SCENE
  | .VDSM_NOTIFICATION_UNDO_SCENE | .VDSM_NOTIFICATION_SET_LOCAL_PRIORITY
  | .VDSM_NOTIFICATION_CALL_MIN_SCENE | .VDSM_NOTIFICATION_IDENTIFY
  | .VDSM_NOTIFICATION_SET_CONTROL_VALUE | .VDSM_NOTIFICATION_DIM_CHANNEL
  | .VDSM_NOTIFICATION_SET_OUTPUT_CHANNEL_VALUE => true
  | _ => false

/-- Modelled from the spec: the closed result-code enumeration of the wire
protocol (from the generated protobuf module, not under src/); only the codes
the dispatcher code uses are listed. -/
inductive ResultCode where
  | ERR_OK
  | ERR_MESSAGE_UNKNOWN
  | ERR_NOT_FOUND
deriving DecidableEq, Repr

/-- The property dictionaries produced by `create_property_dict`
(api/message_builder.py lines 339-362): a name, an optional value (the key is
absent when the value is `None`) and optional nested elements (an absent key
and an empty list are interchangeable for every consumer in the code). -/
inductive PropDict where
  | mk (name : String) (value : Option PyData) (elements : List PropDict) : PropDict

/-- `create_property_dict`: key/value assembly for message building. -/
def create_property_dict (name : String) (value : Option PyData)
    (elements : List PropDict) : PropDict :=
  .mk name value elements

/-- The payload variants of outgoing messages built by `MessageBuilder`. -/
inductive PbPayload where
  | empty : PbPayload
  | genericResponse (code : ResultCode) (description : Option String) : PbPayload
  | responseHello (dSUID : String) : PbPayload
  | responseGetProperty (properties : List PropDict) : PbPayload
  | pong (dSUID : String) : PbPayload

/-- An outgoing wire message: type tag, correlation id, payload. -/
structure PbMessage where
  type : MsgType
  message_id : Nat
  payload : PbPayload

/-- `MessageBuilder` (api/message_builder.py): carries the container's own
identifier. -/
structure MessageBuilder where
  vdc_dsuid : String

/-- `MessageBuilder.create_generic_response` (api/message_builder.py lines
55-83): a `GENERIC_RESPONSE` with the given result code and correlation id;
the description is only set when truthy (a `None` or empty description is
omitted). -/
def MessageBuilder.create_generic_response (_b : MessageBuilder) (code : ResultCode)
    (description : Option String) (message_id : Nat) : PbMessage :=
  { type := .GENERIC_RESPONSE, message_id := message_id,
    payload := .genericResponse code
      (match description with
       | some d => if d = "" then none else some d
       | none => none) }

/-- `MessageBuilder.create_response_hello`: echoes the container identity. -/
def MessageBuilder.create_response_hello (b : MessageBuilder) (message_id : Nat) :
    PbMessage :=
  { type := .VDC_RESPONSE_HELLO, message_id := message_id,
    payload := .responseHello b.vdc_dsuid }

/-- `MessageBuilder.create_response_get_property`: wraps property dicts. -/
def MessageBuilder.create_response_get_property (_b : MessageBuilder)
    (properties : List PropDict) (message_id : Nat) : PbMessage :=
  { type := .VDC_RESPONSE_GET_PROPERTY, message_id := message_id,
    payload := .responseGetProperty properties }

/-- `MessageBuilder.create_pong`: keepalive reply. -/
def MessageBuilder.create_pong (_b : MessageBuilder) (device_dsuid : String)
    (message_id : Nat) : PbMessage :=
  { type := .VDC_SEND_PONG, message_id := message_id, payload := .pong device_dsuid }

/-- One extracted query element of a get-property request, the dict shape
produced by `extract_property_elements` (message_handler.py lines 286-313);
only the `name` key is consulted by the property handlers. -/
structure QueryElem where
  name : Option String := none
  value : Option PyData := none

/-- The typed payloads of incoming messages needed by the modelled handlers
(the Python code probes protobuf fields dynamically; other message kinds
carry `empty`). -/
inductive IncomingPayload where
  | empty : IncomingPayload
  | getProperty (query : List QueryElem) : IncomingPayload
  | setOutputChannelValue (dSUID : List String) (channel : Option Int)
      (value : Option PyFloat) (apply_now : Option Bool)
      (channelId : Option String) : IncomingPayload

/-- `ParsedMessage` (message_handler.py lines 19-52): message type,
correlation id (0 when absent), optional routing identifier, typed payload. -/
structure ParsedMessage where
  message_type : MsgType
  message_id : Nat
  dsuid : Option String := none
  payload : IncomingPayload := .empty

/-- `MessageHandler` (message_handler.py): the mutable registry of per-type
handlers, as a total lookup function. A handler may return a response, return
nothing, or raise (`Except.error`). -/
structure MessageHandler where
  _handlers : MsgType → Option (ParsedMessage → Except String (Option PbMessage))

/-- `MessageHandler.handle_message` (message_handler.py lines 109-145): no
registered handler → log and return nothing; handler returns → pass its
response through; handler raises → return a generic `ERR_MESSAGE_UNKNOWN`
response carrying the failed message's `message_id` (built by a fresh
`MessageBuilder("")`), for every message type alike. -/
def MessageHandler.handle_message (h : MessageHandler) (parsed_msg : ParsedMessage) :
    Option PbMessage :=
  match h._handlers parsed_msg.message_type with
  | none => none
  | some handler =>
    match handler parsed_msg with
    | .ok response => response
    | .error e =>
      some ((MessageBuilder.mk "").create_generic_response .ERR_MESSAGE_UNKNOWN
        (some ("Handler error: " ++ e)) parsed_msg.message_id)

/-- `VirtualDevice` (virtual_device.py lines 34-97): the persisted device
dataclass (identifier generation at construction time is outside this model;
the dispatcher only reads these fields). -/
structure VirtualDevice where
  device_id : String := ""
  dsid : String := ""
  display_id : String := ""
  type : String := "vdSD"
  model : String := ""
  model_version : String := ""
  model_uid : String := ""
  hardware_version : String := ""
  hardware_guid : String := ""
  hardware_model_guid : String := ""
  vendor_name : String := ""
  vendor_guid : String := ""
  oem_guid : String := ""
  oem_model_guid : String := ""
  device_class : String := ""
  device_class_version : String := ""
  active : Option Bool := none
  name : String := ""
  group_id : Int := 0
  ha_entity_id : String := ""
  zone_id : Int := 0
  attributes : List (String × PyData) := []

/-- First-match lookup in a Python dict modelled as an association list. -/
def lookupStr (d : List (String × PyData)) (k : String) : Option PyData :=
  (d.find? (fun p => p.1 == k)).map Prod.snd

/-- `VdcMessageDispatcher` (api/vdc_message_dispatcher.py lines 44-66): the
container identifier and the device store; `device_storage.get_all_devices()`
is modelled by the list `devices`. -/
structure VdcMessageDispatcher where
  vdc_dsuid : String
  devices : List VirtualDevice

/-- The dispatcher's builder, constructed with the container identifier. -/
def VdcMessageDispatcher.message_builder (d : VdcMessageDispatcher) : MessageBuilder :=
  ⟨d.vdc_dsuid⟩

/-- `VdcMessageDispatcher._find_device_by_dsuid` (lines 388-401): first device
whose `dsid` equals the routing identifier (never equal when it is absent). -/
def VdcMessageDispatcher.find_device_by_dsuid (d : VdcMessageDispatcher)
    (dsuid : Option String) : Option VirtualDevice :=
  d.devices.find? (fun device => some device.dsid == dsuid)

/-- The `vdc_info` map of `_get_vdc_properties` (lines 417-423). -/
def vdc_info (d : VdcMessageDispatcher) : List (String × PyData) :=
  [("dSUID", .pyStr d.vdc_dsuid),
   ("modelName", .pyStr "Virtual digitalSTROM Devices for Home Assistant"),
   ("modelVersion", .pyStr "0.1.0"),
   ("vendorName", .pyStr "Home Assistant Community")]

/-- The `device_props` map of `_get_device_properties` (lines 456-469): the
seven declared fields plus, when the attribute exists, the state snapshot. -/
def device_props (device : VirtualDevice) : List (String × PyData) :=
  [("dSUID", .pyStr device.dsid), ("name", .pyStr device.name),
   ("zoneID", .pyInt device.zone_id), ("primaryGroup", .pyInt device.group_id),
   ("model", .pyStr device.model), ("modelVersion", .pyStr device.model_version),
   ("displayId", .pyStr device.display_id)] ++
  (match lookupStr device.attributes "state_values" with
   | some sv => [("state", sv)]
   | none => [])

/-- `VdcMessageDispatcher._get_vdc_properties` (lines 403-438): empty query →
all container properties; otherwise only the requested names present in the
map. -/
def VdcMessageDispatcher.get_vdc_properties (d : VdcMessageDispatcher)
    (query_elements : List QueryElem) : List PropDict :=
  if query_elements.isEmpty then
    (vdc_info d).map (fun p => create_property_dict p.1 (some p.2) [])
  else
    query_elements.foldl (fun properties query =>
      match query.name with
      | some prop_name =>
        match lookupStr (vdc_info d) prop_name with
        | some v => properties ++ [create_property_dict prop_name (some v) []]
        | none => properties
      | none => properties) []

/-- `VdcMessageDispatcher._get_device_properties` (lines 440-489): empty query
→ every declared property; otherwise requested names are looked up first
among the declared properties, then among the free-form attributes, and
dropped when absent from both. -/
def VdcMessageDispatcher.get_device_properties (device : VirtualDevice)
    (query_elements : List QueryElem) : List PropDict :=
  if query_elements.isEmpty then
    (device_props device).map (fun p => create_property_dict p.1 (some p.2) [])
  else
    query_elements.foldl (fun properties query =>
      match query.name with
      | some prop_name =>
        match lookupStr (device_props device) prop_name with
        | some v => properties ++ [create_property_dict prop_name (some v) []]
        | none =>
          match lookupStr device.attributes prop_name with
          | some v => properties ++ [create_property_dict prop_name (some v) []]
          | none => properties
      | none => properties) []

/-- Python string interpolation of an optional value. -/
def optStr : Option String → String
  | some s => s
  | none => "None"

/-- `VdcMessageDispatcher.handle_request_get_property` (lines 98-140): the
container's own id answers container properties; a known device id answers
device properties; anything else gets an `ERR_NOT_FOUND` generic response
echoing the request's `message_id`. An ill-shaped payload raises (the Python
code would fail probing `payload.query`). -/
def VdcMessageDispatcher.handle_request_get_property (d : VdcMessageDispatcher)
    (parsed_msg : ParsedMessage) : Except String PbMessage :=
  match parsed_msg.payload with
  | .getProperty query_elements =>
    if parsed_msg.dsuid = some d.vdc_dsuid then
      .ok (d.message_builder.create_response_get_property
        (d.get_vdc_properties query_elements) parsed_msg.message_id)
    else
      match d.find_device_by_dsuid parsed_msg.dsuid with
      | some device =>
        .ok (d.message_builder.create_response_get_property
          (VdcMessageDispatcher.get_device_properties device query_elements)
          parsed_msg.message_id)
      | none =>
        .ok (d.message_builder.create_generic_response .ERR_NOT_FOUND
          (some ("Device " ++ optStr parsed_msg.dsuid ++ " not found"))
          parsed_msg.message_id)
  | _ => .error "AttributeError: payload has no field query"

/-- The property key `StatePropertyType.CHANNEL_VALUE.value`
(state_listener.py line 72). -/
def CHANNEL_VALUE : String := "channel.value"

/-- One call to the external property-update sink,
`property_updater.update_property(device_id, property_type, value, index)`. -/
structure SinkUpdate where
  device_id : String
  property_type : String
  value : PyData
  index : Option Int

/-- Observable effects of a notification handler: sink calls, warning log
lines, and the returned envelope. -/
structure HandlerEffects where
  updates : List SinkUpdate
  warnings : List String
  response : Option PbMessage

/-- Sequencing of per-device effects (notification handlers return nothing). -/
def combineEffects (a b : HandlerEffects) : HandlerEffects :=
  ⟨a.updates ++ b.updates, a.warnings ++ b.warnings, none⟩

/-- Python string interpolation of an optional integer. -/
def optIntStr : Option Int → String
  | some n => toString n
  | none => "None"

/-- `VdcMessageDispatcher._set_output_channel_value` (lines 589-627): an
absent value (distinct from a zero value) logs a warning and returns without
touching the sink; otherwise one indexed sink update with the channel index
(defaulting to 0) is issued. -/
def set_output_channel_value (device : VirtualDevice) (channel : Option Int)
    (value : Option PyFloat) (_apply_now : Bool) (_channel_id : Option String) :
    HandlerEffects :=
  match value with
  | none =>
    ⟨[], ["No value provided for channel " ++ optIntStr channel ++ " on device "
        ++ device.name], none⟩
  | some v =>
    ⟨[⟨device.device_id, CHANNEL_VALUE, .pyFloat v, some (channel.getD 0)⟩], [], none⟩

/-- `VdcMessageDispatcher.handle_notification_set_output_channel_value`
(lines 273-303): iterates the listed device identifiers, silently skipping
unknown ones, and applies `set_output_channel_value` to each resolved device;
no envelope is ever produced. An ill-shaped payload raises. -/
def VdcMessageDispatcher.handle_notification_set_output_channel_value
    (d : VdcMessageDispatcher) (parsed_msg : ParsedMessage) :
    Except String HandlerEffects :=
  match parsed_msg.payload with
  | .setOutputChannelValue dSUIDs channel value apply_now channelId =>
    .ok (dSUIDs.foldl (fun eff dsuid =>
      match d.find_device_by_dsuid (some dsuid) with
      | some device =>
        combineEffects eff
          (set_output_channel_value device channel value (apply_now.getD true) channelId)
      | none => eff) ⟨[], [], none⟩)
  | _ => .error "AttributeError: payload has no field dSUID"

/-- A handler registry with a raising handler installed for the call-scene
notification, used to exercise the dispatcher's error fallback. -/
def rogueHandlers : MsgType → Option (ParsedMessage → Except String (Option PbMessage)) :=
  fun t =>
    if t = .VDSM_NOTIFICATION_CALL_SCENE then some (fun _ => .error "boom") else none

/-- A parsed call-scene notification (the payload is irrelevant to routing). -/
def callSceneMsg : ParsedMessage :=
  { message_type := .VDSM_NOTIFICATION_CALL_SCENE, message_id := 0 }

/-- Counterexample to C1 as stated: a notification whose registered handler
raises is not swallowed — `handle_message` returns a generic error response
envelope for it, exactly as for a request. -/
theorem C1_counterexample_notification_not_swallowed :
    isNotification callSceneMsg.message_type = true ∧
      MessageHandler.handle_message ⟨rogueHandlers⟩ callSceneMsg =
        some ((MessageBuilder.mk "").create_generic_response .ERR_MESSAGE_UNKNOWN
          (some "Handler error: boom") 0) :=
  ⟨rfl, by rfl⟩

/-- Amended C1: whenever the registered handler of a parsed message raises,
`handle_message` returns a generic `ERR_MESSAGE_UNKNOWN` response carrying
the failed message's correlation id — uniformly for every message type,
notifications included (there is no notification carve-out). -/
theorem C1_amended_handler_error_response :
    ∀ (handlers : MsgType → Option (ParsedMessage → Except String (Option PbMessage)))
      (pm : ParsedMessage)
      (handler : ParsedMessage → Except String (Option PbMessage)) (e : String),
      handlers pm.message_type = some handler →
      handler pm = .error e →
      MessageHandler.handle_message ⟨handlers⟩ pm =
        some ((MessageBuilder.mk "").create_generic_response .ERR_MESSAGE_UNKNOWN
          (some ("Handler error: " ++ e)) pm.message_id) := by
  intro handlers pm handler e hreg herr
  simp only [MessageHandler.handle_message, hreg, herr]

/-- Witness for the amended C1 at the concrete rogue registry. -/
theorem C1_amended_handler_error_response_witness :
    rogueHandlers callSceneMsg.message_type = some (fun _ => .error "boom") ∧
      (fun _ : ParsedMessage => (.error "boom" : Except String (Option PbMessage)))
          callSceneMsg = .error "boom" ∧
      MessageHandler.handle_message ⟨rogueHandlers⟩ callSceneMsg =
        some ((MessageBuilder.mk "").create_generic_response .ERR_MESSAGE_UNKNOWN
          (some ("Handler error: " ++ "boom")) callSceneMsg.message_id) :=
  ⟨by rfl, rfl,
    C1_amended_handler_error_response rogueHandlers callSceneMsg
      (fun _ => .error "boom") "boom" (by rfl) rfl⟩

/-- Claim C2: an empty-query get-property request against a known device
answers with every declared property of that device, echoing the request's
correlation id; an unknown routing id that is not the container's own
identifier gets an `ERR_NOT_FOUND` generic response with the same
correlation id. -/
theorem C2_get_property_known_and_unknown :
    (∀ (d : VdcMessageDispatcher) (pm : ParsedMessage) (device : VirtualDevice),
      pm.payload = .getProperty [] →
      pm.dsuid ≠ some d.vdc_dsuid →
      d.find_device_by_dsuid pm.dsuid = some device →
      d.handle_request_get_property pm =
        .ok (d.message_builder.create_response_get_property
          ((device_props device).map fun p => create_property_dict p.1 (some p.2) [])
          pm.message_id) ∧
      ∀ p ∈ device_props device,
        create_property_dict p.1 (some p.2) [] ∈
          (device_props device).map fun q => create_property_dict q.1 (some q.2) []) ∧
    (∀ (d : VdcMessageDispatcher) (pm : ParsedMessage) (query : List QueryElem),
      pm.payload = .getProperty query →
      pm.dsuid ≠ some d.vdc_dsuid →
      d.find_device_by_dsuid pm.dsuid = none →
      d.handle_request_get_property pm =
        .ok (d.message_builder.create_generic_response .ERR_NOT_FOUND
          (some ("Device " ++ optStr pm.dsuid ++ " not found")) pm.message_id) ∧
      (d.message_builder.create_generic_response .ERR_NOT_FOUND
        (some ("Device " ++ optStr pm.dsuid ++ " not found")) pm.message_id).message_id =
        pm.message_id ∧
      (d.message_builder.create_generic_response .ERR_NOT_FOUND
        (some ("Device " ++ optStr pm.dsuid ++ " not found")) pm.message_id).payload =
        .genericResponse .ERR_NOT_FOUND
          (some ("Device " ++ optStr pm.dsuid ++ " not found"))) := by
  constructor
  · intro d pm device hpl hne hfind
    constructor
    · rcases pm with ⟨mt, mid, dsuid, payload⟩
      simp only at hpl hne hfind ⊢
      subst hpl
      simp only [VdcMessageDispatcher.handle_request_get_property, if_neg hne, hfind,
        VdcMessageDispatcher.get_device_properties, List.isEmpty_nil, if_true]
    · intro p hp
      exact List.mem_map_of_mem _ hp
  · intro d pm query hpl hne hfind
    refine ⟨?_, rfl, ?_⟩
    · rcases pm with ⟨mt, mid, dsuid, payload⟩
      simp only at hpl hne hfind ⊢
      subst hpl
      simp only [VdcMessageDispatcher.handle_request_get_property, if_neg hne, hfind]
    · have hne' : ("Device " ++ optStr pm.dsuid ++ " not found") ≠ "" := by
        intro h
        have := congrArg String.length h
        simp [String.length_append] at this
        exact absurd this.1.1 (by decide)
      simp only [MessageBuilder.create_generic_response, if_neg hne']

/-- A concrete device for the C2 and C9 witnesses. -/
def exampleDevice : VirtualDevice :=
  { device_id := "dev-1", dsid := "AAAAAAAAAAAAAAAAAAAAAAAAAAAAAAAAAA",
    display_id := "lamp-1", model := "Virtual Lamp", model_version := "1.0",
    name := "Lamp", group_id := 1, zone_id := 2 }

/-- A concrete dispatcher owning `exampleDevice`. -/
def exampleDispatcher : VdcMessageDispatcher :=
  ⟨"CCCCCCCCCCCCCCCCCCCCCCCCCCCCCCCCCC", [exampleDevice]⟩

/-- Witness for C2: both branches applied at concrete inputs — the known
device answers all seven declared properties; the unknown id gets the
not-found response with the request's id 42. -/
theorem C2_get_property_known_and_unknown_witness :
    ((ParsedMessage.mk .VDSM_REQUEST_GET_PROPERTY 42
        (some "AAAAAAAAAAAAAAAAAAAAAAAAAAAAAAAAAA") (.getProperty [])).payload =
        .getProperty [] ∧
      exampleDispatcher.find_device_by_dsuid
        (some "AAAAAAAAAAAAAAAAAAAAAAAAAAAAAAAAAA") = some exampleDevice ∧
      exampleDispatcher.handle_request_get_property
        (ParsedMessage.mk .VDSM_REQUEST_GET_PROPERTY 42
          (some "AAAAAAAAAAAAAAAAAAAAAAAAAAAAAAAAAA") (.getProperty [])) =
        .ok (exampleDispatcher.message_builder.create_response_get_property
          ((device_props exampleDevice).map fun p =>
            create_property_dict p.1 (some p.2) []) 42)) ∧
    (exampleDispatcher.find_device_by_dsuid
        (some "BBBBBBBBBBBBBBBBBBBBBBBBBBBBBBBBBB") = none ∧
      exampleDispatcher.handle_request_get_property
        (ParsedMessage.mk .VDSM_REQUEST_GET_PROPERTY 42
          (some "BBBBBBBBBBBBBBBBBBBBBBBBBBBBBBBBBB") (.getProperty [])) =
        .ok (exampleDispatcher.message_builder.create_generic_response .ERR_NOT_FOUND
          (some ("Device " ++
            optStr (some "BBBBBBBBBBBBBBBBBBBBBBBBBBBBBBBBBB") ++ " not found")) 42)) :=
  ⟨⟨rfl, by rfl,
    ((C2_get_property_known_and_unknown.1 exampleDispatcher
      (ParsedMessage.mk .VDSM_REQUEST_GET_PROPERTY 42
        (some "AAAAAAAAAAAAAAAAAAAAAAAAAAAAAAAAAA") (.getProperty []))
      exampleDevice rfl (by decide) (by rfl))).1⟩,
   ⟨by rfl,
    ((C2_get_property_known_and_unknown.2 exampleDispatcher
      (ParsedMessage.mk .VDSM_REQUEST_GET_PROPERTY 42
        (some "BBBBBBBBBBBBBBBBBBBBBBBBBBBBBBBBBB") (.getProperty [])) []
      rfl (by decide) (by rfl))).1⟩⟩

/-- The per-device fold of the set-output-channel-value handler, with an
absent value, leaves the sink untouched, yields no envelope, and logs exactly
one warning per resolved device. -/
lemma socv_foldl_value_none (d : VdcMessageDispatcher) (channel : Option Int)
    (apply_now : Bool) (channelId : Option String) (l : List String) :
    ∀ acc : HandlerEffects, acc.response = none →
      (l.foldl (fun eff dsuid =>
        match d.find_device_by_dsuid (some dsuid) with
        | some device =>
          combineEffects eff
            (set_output_channel_value device channel none apply_now channelId)
        | none => eff) acc).updates = acc.updates ∧
      (l.foldl (fun eff dsuid =>
        match d.find_device_by_dsuid (some dsuid) with
        | some device =>
          combineEffects eff
            (set_output_channel_value device channel none apply_now channelId)
        | none => eff) acc).response = none ∧
      (l.foldl (fun eff dsuid =>
        match d.find_device_by_dsuid (some dsuid) with
        | some device =>
          combineEffects eff
            (set_output_channel_value device channel none apply_now channelId)
        | none => eff) acc).warnings.length =
        acc.warnings.length +
          (l.filter (fun s => (d.find_device_by_dsuid (some s)).isSome)).length := by
  induction l with
  | nil =>
    intro acc hresp
    exact ⟨rfl, hresp, by simp⟩
  | cons s rest ih =>
    intro acc hresp
    simp only [List.foldl_cons]
    cases hf : d.find_device_by_dsuid (some s) with
    | some device =>
      have hstep :
          combineEffects acc
            (set_output_channel_value device channel none apply_now channelId) =
          ⟨acc.updates,
            acc.warnings ++ ["No value provided for channel " ++ optIntStr channel ++
              " on device " ++ device.name], none⟩ := by
        simp [combineEffects, set_output_channel_value]
      simp only [hf, hstep]
      obtain ⟨h1, h2, h3⟩ := ih ⟨acc.updates,
        acc.warnings ++ ["No value provided for channel " ++ optIntStr channel ++
          " on device " ++ device.name], none⟩ rfl
      refine ⟨by simpa using h1, h2, ?_⟩
      rw [h3]
      simp [List.filter_cons, hf]
      omega
    | none =>
      simp only [hf]
      obtain ⟨h1, h2, h3⟩ := ih acc hresp
      refine ⟨h1, h2, ?_⟩
      rw [h3]
      simp [List.filter_cons, hf]

/-- Counterexample to C9 as stated: a set-output-channel-value notification
with an absent value whose single listed device id resolves to nothing
performs no sink call and produces no envelope — but also logs no warning. -/
theorem C9_counterexample_no_warning_without_device :
    VdcMessageDispatcher.handle_notification_set_output_channel_value
        ⟨"CCCCCCCCCCCCCCCCCCCCCCCCCCCCCCCCCC", []⟩
        { message_type := .VDSM_NOTIFICATION_SET_OUTPUT_CHANNEL_VALUE,
          message_id := 0, dsuid := some "AAAA",
          payload := .setOutputChannelValue ["AAAA"] none none none none } =
      .ok ⟨[], [], none⟩ := by
  rfl

/-- Amended C9: with the value field absent, the handler performs no sink
update for any listed device and produces no envelope, and it logs one
warning per listed device id that resolves to a known device — in particular
no warning at all when none resolves. -/
theorem C9_amended_absent_value :
    ∀ (d : VdcMessageDispatcher) (pm : ParsedMessage) (dSUIDs : List String)
      (channel : Option Int) (apply_now : Option Bool) (channelId : Option String),
      pm.payload = .setOutputChannelValue dSUIDs channel none apply_now channelId →
      ∃ eff : HandlerEffects,
        d.handle_notification_set_output_channel_value pm = .ok eff ∧
        eff.updates = [] ∧ eff.response = none ∧
        eff.warnings.length =
          (dSUIDs.filter (fun s => (d.find_device_by_dsuid (some s)).isSome)).length := by
  intro d pm dSUIDs channel apply_now channelId hpl
  rcases pm with ⟨mt, mid, dsuid, payload⟩
  simp only at hpl
  subst hpl
  refine ⟨_, rfl, ?_⟩
  have h := socv_foldl_value_none d channel (apply_now.getD true) channelId dSUIDs
    ⟨[], [], none⟩ rfl
  exact ⟨h.1, h.2.1, by simpa using h.2.2⟩

/-- Witness for the amended C9: two listed ids of which only one resolves —
no sink calls, no envelope, exactly one warning. -/
theorem C9_amended_absent_value_witness :
    ((ParsedMessage.mk .VDSM_NOTIFICATION_SET_OUTPUT_CHANNEL_VALUE 0
        (some "AAAAAAAAAAAAAAAAAAAAAAAAAAAAAAAAAA")
        (.setOutputChannelValue
          ["AAAAAAAAAAAAAAAAAAAAAAAAAAAAAAAAAA", "BBBBBBBBBBBBBBBBBBBBBBBBBBBBBBBBBB"]
          (some 0) none none none)).payload =
      .setOutputChannelValue
        ["AAAAAAAAAAAAAAAAAAAAAAAAAAAAAAAAAA", "BBBBBBBBBBBBBBBBBBBBBBBBBBBBBBBBBB"]
        (some 0) none none none) ∧
    (∃ eff : HandlerEffects,
      exampleDispatcher.handle_notification_set_output_channel_value
          (ParsedMessage.mk .VDSM_NOTIFICATION_SET_OUTPUT_CHANNEL_VALUE 0
            (some "AAAAAAAAAAAAAAAAAAAAAAAAAAAAAAAAAA")
            (.setOutputChannelValue
              ["AAAAAAAAAAAAAAAAAAAAAAAAAAAAAAAAAA",
                "BBBBBBBBBBBBBBBBBBBBBBBBBBBBBBBBBB"]
              (some 0) none none none)) =
        .ok eff ∧
      eff.updates = [] ∧ eff.response = none ∧
      eff.warnings.length =
        (["AAAAAAAAAAAAAAAAAAAAAAAAAAAAAAAAAA",
          "BBBBBBBBBBBBBBBBBBBBBBBBBBBBBBBBBB"].filter
          (fun s => (exampleDispatcher.find_device_by_dsuid (some s)).isSome)).length) :=
  ⟨rfl,
    C9_amended_absent_value exampleDispatcher
      (ParsedMessage.mk .VDSM_NOTIFICATION_SET_OUTPUT_CHANNEL_VALUE 0
        (some "AAAAAAAAAAAAAAAAAAAAAAAAAAAAAAAAAA")
        (.setOutputChannelValue
          ["AAAAAAAAAAAAAAAAAAAAAAAAAAAAAAAAAA", "BBBBBBBBBBBBBBBBBBBBBBBBBBBBBBBBBB"]
          (some 0) none none none))
      ["AAAAAAAAAAAAAAAAAAAAAAAAAAAAAAAAAA", "BBBBBBBBBBBBBBBBBBBBBBBBBBBBBBBBBB"]
      (some 0) none none rfl⟩

/-- Witness for the amended C6 at the all-zero 34-character string. -/
theorem C6_amended_validate_characterization_witness :
    ("0000000000000000000000000000000000".length = 34 ∧
      (∀ c ∈ "0000000000000000000000000000000000".data, isHexDigitChar c = true) ∧
      validate_dsuid "0000000000000000000000000000000000" = true) ∧
    "0000000000000000000000000000000000".length = 34 := by
  have h1 : "0000000000000000000000000000000000".length = 34 := rfl
  have h2 : ∀ c ∈ "0000000000000000000000000000000000".data, isHexDigitChar c = true := by
    decide
  have hv := (C6_amended_validate_characterization "0000000000000000000000000000000000").1 h1 h2
  exact ⟨⟨h1, h2, hv⟩,
    (C6_amended_validate_characterization "0000000000000000000000000000000000").2 hv⟩

end VDS
